import Mathlib

/-
Verification of the aerosdk repository: a CRUD service for aerospace
component records (FastAPI server, src/server) plus a typed client
(src/sdk).  The server state, the endpoint handlers and the client's
status-code / transport-exception mapping are embedded shallowly below,
translated from the Python source.  Timestamps are modelled as natural
numbers (func.now() becomes an explicit `now` parameter), weights as
rationals, and the SQLAlchemy-backed table as a list of rows plus the
autoincrement sequence counter.
-/

namespace AeroSDK

/-- ComponentType enumeration, defined identically in src/sdk/models.py and
src/server/models.py: fuselage, wing, engine, landing_gear, avionics, other. -/
inductive ComponentType where
  | fuselage
  | wing
  | engine
  | landing_gear
  | avionics
  | other
deriving DecidableEq

/-- The string value of each enumeration member (the `str, Enum` values). -/
def ComponentType.value : ComponentType → String
  | .fuselage => "fuselage"
  | .wing => "wing"
  | .engine => "engine"
  | .landing_gear => "landing_gear"
  | .avionics => "avionics"
  | .other => "other"

/-- Models the `ComponentType(component_type)` constructor call in
src/server/routes.py: returns the member whose value is the given string, or
none where Python raises ValueError. -/
def ComponentType.ofString? (s : String) : Option ComponentType :=
  if s = "fuselage" then some .fuselage
  else if s = "wing" then some .wing
  else if s = "engine" then some .engine
  else if s = "landing_gear" then some .landing_gear
  else if s = "avionics" then some .avionics
  else if s = "other" then some .other
  else none

/-- A full component record: the pydantic `Component` model of
src/sdk/models.py and equally a row of the `components` table
(ComponentModel, src/server/models.py). -/
structure Component where
  id : Nat
  name : String
  description : Option String
  component_type : ComponentType
  weight_kg : ℚ
  material : Option String
  created_at : Nat
  updated_at : Nat
deriving DecidableEq

/-- A creation payload: the pydantic `ComponentCreate` model
(src/sdk/models.py), i.e. the request body of POST /api/components. -/
structure ComponentCreate where
  name : String
  description : Option String
  component_type : ComponentType
  weight_kg : ℚ
  material : Option String
deriving DecidableEq

/-- The pydantic field constraints on ComponentBase / ComponentCreate
(src/sdk/models.py lines 22-28): name 1-255 chars, description at most 1000,
weight_kg strictly positive, material at most 100.  FastAPI checks these on
the request body before the route handler runs. -/
def ComponentCreate.validB (p : ComponentCreate) : Bool :=
  decide (1 ≤ p.name.length) && decide (p.name.length ≤ 255) &&
  (match p.description with
   | none => true
   | some d => decide (d.length ≤ 1000)) &&
  decide ((0 : ℚ) < p.weight_kg) &&
  (match p.material with
   | none => true
   | some m => decide (m.length ≤ 100))

/-- Names of the fields whose constraint fails, as they appear in the `loc`
entries of FastAPI's 422 validation detail. -/
def ComponentCreate.validationErrors (p : ComponentCreate) : List String :=
  (if 1 ≤ p.name.length ∧ p.name.length ≤ 255 then [] else ["name"]) ++
  (match p.description with
   | none => []
   | some d => if d.length ≤ 1000 then [] else ["description"]) ++
  (if (0 : ℚ) < p.weight_kg then [] else ["weight_kg"]) ++
  (match p.material with
   | none => []
   | some m => if m.length ≤ 100 then [] else ["material"])

/-- An update payload as the caller of the SDK builds it: the pydantic
`ComponentUpdate` model (src/sdk/models.py lines 46-52), every field optional
with default None.  `fieldsSet` models pydantic's `model_fields_set`: the
names of the fields the caller passed explicitly (whether or not the value
passed was None). -/
structure ComponentUpdate where
  name : Option String
  description : Option String
  component_type : Option ComponentType
  weight_kg : Option ℚ
  material : Option String
  fieldsSet : List String
deriving DecidableEq

/-- The wire body of PUT /api/components/id: a JSON object in which each of
the five data fields is either present (some) or absent (none). -/
structure UpdatePayload where
  name : Option String
  description : Option String
  component_type : Option ComponentType
  weight_kg : Option ℚ
  material : Option String
deriving DecidableEq

/-- `component.model_dump(exclude_none=True)` as used by
AeroClient.update_component (src/sdk/client.py line 138) and again by the
server route (src/server/routes.py line 93): every field whose value is None
is omitted from the dump; which fields were explicitly set is not consulted. -/
def ComponentUpdate.dumpExcludeNone (u : ComponentUpdate) : UpdatePayload :=
  { name := u.name
    description := u.description
    component_type := u.component_type
    weight_kg := u.weight_kg
    material := u.material }

/-- The pydantic constraints on ComponentUpdate: any field present must meet
the same bounds as creation. -/
def UpdatePayload.validB (u : UpdatePayload) : Bool :=
  (match u.name with
   | none => true
   | some n => decide (1 ≤ n.length) && decide (n.length ≤ 255)) &&
  (match u.description with
   | none => true
   | some d => decide (d.length ≤ 1000)) &&
  (match u.weight_kg with
   | none => true
   | some w => decide ((0 : ℚ) < w)) &&
  (match u.material with
   | none => true
   | some m => decide (m.length ≤ 100))

/-- Server-side state: the `components` table rows together with the
autoincrement primary-key sequence (`id` column, src/server/models.py line
39).  `nextId` is the value the sequence will hand to the next INSERT; the
sequence never reuses a value, so every previously assigned id is below it. -/
structure Store where
  components : List Component
  nextId : Nat
deriving DecidableEq

/-- Well-formedness of the table: primary-key ids are distinct, and every id
already assigned (whether the row still exists or not) is below the sequence
counter. -/
def Store.WF (s : Store) : Prop :=
  (s.components.map Component.id).Nodup ∧ ∀ c ∈ s.components, c.id < s.nextId

instance (s : Store) : Decidable s.WF := by
  unfold Store.WF
  infer_instance

/-- `db.query(ComponentModel).filter(ComponentModel.id == component_id).first()`:
the first row with the given id, if any. -/
def findComponent (i : Nat) (s : Store) : Option Component :=
  s.components.find? (fun c => c.id = i)

/-- Removes the first row with the given id, as `db.delete(component)` on the
row returned by `.first()`. -/
def removeFirst (i : Nat) : List Component → List Component
  | [] => []
  | c :: rest => if c.id = i then rest else c :: removeFirst i rest

/-- Replaces the first row with the given id by the given row, as the
setattr loop followed by `db.commit()` mutates the fetched row in place. -/
def replaceFirst (i : Nat) (c' : Component) : List Component → List Component
  | [] => []
  | c :: rest => if c.id = i then c' :: rest else c :: replaceFirst i c' rest

/-! Server endpoints (src/server/routes.py).  Each result constructor carries
the HTTP status code via a `status` projection.  FastAPI rejects a request
body that fails the pydantic model's validation with a 422 response before
the handler runs; that check is part of each endpoint definition below. -/

/-- Detail string of every 404 raised in src/server/routes.py. -/
def componentNotFoundDetail : String := "Component not found"

/-- Detail of the 400 raised for an invalid type filter
(src/server/routes.py lines 34-37). -/
def invalidTypeDetail (component_type : String) : String :=
  ("Invalid component type: " ++ component_type)

/-- Result of GET /api/components. -/
inductive ListResult where
  | ok (body : List Component)
  | badRequest (detail : String)
deriving DecidableEq

def ListResult.status : ListResult → Nat
  | .ok _ => 200
  | .badRequest _ => 400

/-- list_components (src/server/routes.py lines 16-40).  The handler
receives `component_type: Optional[str] = Query(None)`; `if component_type:`
is Python truthiness, false for None and for the empty string, so the filter
branch runs only for a nonempty string, which is then checked against the
enumeration. -/
def list_components (component_type : Option String) (s : Store) : ListResult :=
  match component_type with
  | none => .ok s.components
  | some t =>
    if t = "" then .ok s.components
    else
      match ComponentType.ofString? t with
      | some ty => .ok (s.components.filter (fun c => c.component_type = ty))
      | none => .badRequest (invalidTypeDetail t)

/-- Result of GET /api/components/id. -/
inductive GetResult where
  | ok (body : Component)
  | notFound (detail : String)
deriving DecidableEq

def GetResult.status : GetResult → Nat
  | .ok _ => 200
  | .notFound _ => 404

/-- get_component (src/server/routes.py lines 43-53). -/
def get_component (component_id : Nat) (s : Store) : GetResult :=
  match findComponent component_id s with
  | none => .notFound componentNotFoundDetail
  | some c => .ok c

/-- Result of POST /api/components; each constructor carries the store after
the request. -/
inductive CreateResult where
  | created (body : Component) (s : Store)
  | unprocessable (detail : List String) (s : Store)
deriving DecidableEq

def CreateResult.status : CreateResult → Nat
  | .created _ _ => 201
  | .unprocessable _ _ => 422

def CreateResult.store : CreateResult → Store
  | .created _ s => s
  | .unprocessable _ s => s

/-- create_component (src/server/routes.py lines 56-75) together with the
FastAPI body validation that precedes it.  An invalid body never reaches the
handler: FastAPI answers 422 with the pydantic error detail and the store is
untouched.  A valid body is inserted: the sequence assigns the id, and both
timestamp columns take their `server_default=func.now()` in the same INSERT,
so they receive the same `now`. -/
def create_component (component_data : ComponentCreate) (now : Nat) (s : Store) :
    CreateResult :=
  if component_data.validB then
    let c : Component :=
      { id := s.nextId
        name := component_data.name
        description := component_data.description
        component_type := component_data.component_type
        weight_kg := component_data.weight_kg
        material := component_data.material
        created_at := now
        updated_at := now }
    .created c { components := s.components ++ [c], nextId := s.nextId + 1 }
  else
    .unprocessable component_data.validationErrors s

/-- Result of PUT /api/components/id. -/
inductive UpdateResult where
  | ok (body : Component) (s : Store)
  | notFound (detail : String) (s : Store)
  | unprocessable (detail : List String) (s : Store)
deriving DecidableEq

/-- Names of the update-payload fields whose constraint fails, as in the
`loc` entries of FastAPI's 422 validation detail. -/
def UpdatePayload.validationErrors (u : UpdatePayload) : List String :=
  (match u.name with
   | none => []
   | some n => if 1 ≤ n.length ∧ n.length ≤ 255 then [] else ["name"]) ++
  (match u.description with
   | none => []
   | some d => if d.length ≤ 1000 then [] else ["description"]) ++
  (match u.weight_kg with
   | none => []
   | some w => if (0 : ℚ) < w then [] else ["weight_kg"]) ++
  (match u.material with
   | none => []
   | some m => if m.length ≤ 100 then [] else ["material"])

def UpdateResult.status : UpdateResult → Nat
  | .ok _ _ => 200
  | .notFound _ _ => 404
  | .unprocessable _ _ => 422

/-- The setattr loop of update_component (src/server/routes.py lines 93-95)
applied to the fetched row: each field present in
`model_dump(exclude_none=True)` overwrites the row's field; absent fields
are untouched, and id, created_at and updated_at are not in ComponentUpdate,
so the loop never assigns them. -/
def applyFields (c : Component) (u : UpdatePayload) : Component :=
  { id := c.id
    name := u.name.getD c.name
    description :=
      match u.description with
      | some d => some d
      | none => c.description
    component_type := u.component_type.getD c.component_type
    weight_kg := u.weight_kg.getD c.weight_kg
    material :=
      match u.material with
      | some m => some m
      | none => c.material
    created_at := c.created_at
    updated_at := c.updated_at }

/-- Whether the flush inside `db.commit()` emits an UPDATE statement for the
row: SQLAlchemy compares each assigned attribute against its committed value
and emits an UPDATE only when some column has a net change, so an empty dump
— the setattr loop ran zero times — or setattrs of the row's current values
emit nothing.  The updated_at column's `onupdate=func.now()`
(src/server/models.py lines 46-51) fires exactly when that UPDATE is
emitted. -/
def netChange (c : Component) (u : UpdatePayload) : Bool :=
  decide (applyFields c u ≠ c)

/-- update_component (src/server/routes.py lines 78-100) together with the
FastAPI body validation: a body violating a ComponentUpdate field constraint
is a 422 before the handler runs; otherwise a missing id is a 404; otherwise
the present fields are applied to the fetched row and `db.commit()` flushes:
when some applied field actually changed the row, the emitted UPDATE fires
`onupdate=func.now()` and refreshes updated_at, and when nothing changed no
UPDATE is emitted and updated_at keeps its stored value. -/
def update_component (component_id : Nat) (u : UpdatePayload) (now : Nat)
    (s : Store) : UpdateResult :=
  if u.validB then
    match findComponent component_id s with
    | none => .notFound componentNotFoundDetail s
    | some c =>
      let c0 := applyFields c u
      let c' := if netChange c u then { c0 with updated_at := now } else c0
      .ok c' { s with components := replaceFirst component_id c' s.components }
  else
    .unprocessable u.validationErrors s

/-- Result of DELETE /api/components/id. -/
inductive DeleteResult where
  | noContent (s : Store)
  | notFound (detail : String) (s : Store)
deriving DecidableEq

def DeleteResult.status : DeleteResult → Nat
  | .noContent _ => 204
  | .notFound _ _ => 404

/-- delete_component (src/server/routes.py lines 103-114): fetch the row, 404
if absent, otherwise delete it and answer 204 with no body. -/
def delete_component (component_id : Nat) (s : Store) : DeleteResult :=
  match findComponent component_id s with
  | none => .notFound componentNotFoundDetail s
  | some _ => .noContent { s with components := removeFirst component_id s.components }

/-! The client (src/sdk/client.py).  AeroClient._handle_response inspects
`response.status_code`, raising the SDK's typed exceptions for 404, 5xx and
the remaining 4xx, and otherwise calls httpx's `response.raise_for_status()`,
which returns normally on a 2xx and raises `httpx.HTTPStatusError` — an
exception of the transport library, not of the SDK — on every other status. -/

/-- An HTTP response as _handle_response sees it: numeric status and text. -/
structure HttpResponse where
  status_code : Nat
  text : String
deriving DecidableEq

/-- Outcome of AeroClient._handle_response: either control returns to the
caller (which then decodes the body), or one of the SDK's typed exceptions is
raised, or httpx.HTTPStatusError escapes from `raise_for_status`. -/
inductive HandleOutcome where
  | ok
  | notFoundError (msg : String)
  | serverError (msg : String)
  | validationError (msg : String)
  | httpStatusError
deriving DecidableEq

/-- True exactly for the outcomes of _handle_response that belong to the
SDK's typed taxonomy (success or an exception from src/sdk/exceptions.py);
false for the escaping httpx.HTTPStatusError. -/
def HandleOutcome.isTyped : HandleOutcome → Bool
  | .httpStatusError => false
  | _ => true

/-- httpx `Response.raise_for_status`: returns the response when
`is_success` (status 200-299), otherwise raises httpx.HTTPStatusError —
also for informational (1xx) and redirect (3xx) responses. -/
def raise_for_status (r : HttpResponse) : HandleOutcome :=
  if 200 ≤ r.status_code ∧ r.status_code ≤ 299 then .ok else .httpStatusError

/-- The message `f"Server error: {response.text}"` of src/sdk/client.py. -/
def serverErrorMsg (t : String) : String := ("Server error: " ++ t)

/-- The message `f"Validation error: {response.text}"` of src/sdk/client.py. -/
def validationErrorMsg (t : String) : String := ("Validation error: " ++ t)

/-- AeroClient._handle_response (src/sdk/client.py lines 44-52). -/
def handle_response (r : HttpResponse) : HandleOutcome :=
  if r.status_code = 404 then .notFoundError r.text
  else if 500 ≤ r.status_code then .serverError (serverErrorMsg r.text)
  else if 400 ≤ r.status_code then .validationError (validationErrorMsg r.text)
  else raise_for_status r

/-- The transport-level exceptions httpx can raise before a response is
available.  `connectError` is httpx.ConnectError (DNS failure, connection
refused); the timeout constructors are httpx.ConnectTimeout, ReadTimeout and
PoolTimeout, which subclass httpx.TimeoutException, NOT httpx.ConnectError. -/
inductive TransportExc where
  | connectError (msg : String)
  | connectTimeout
  | readTimeout
  | poolTimeout
deriving DecidableEq

/-- The class check of the `except httpx.ConnectError` clause that every
AeroClient operation wraps around its request. -/
def TransportExc.isConnectError : TransportExc → Bool
  | .connectError _ => true
  | _ => false

/-- What an attempted HTTP exchange hands the client: either a response, or
a transport exception raised before any response. -/
inductive CallInput where
  | response (r : HttpResponse)
  | transportFailure (e : TransportExc)
deriving DecidableEq

/-- Outcome of one client operation as seen by its caller. -/
inductive ClientOutcome where
  | success
  | notFoundError (msg : String)
  | serverError (msg : String)
  | validationError (msg : String)
  | connectionError (msg : String)
  | uncaughtTransport (e : TransportExc)
  | uncaughtHTTPStatus
deriving DecidableEq

def HandleOutcome.lift : HandleOutcome → ClientOutcome
  | .ok => .success
  | .notFoundError m => .notFoundError m
  | .serverError m => .serverError m
  | .validationError m => .validationError m
  | .httpStatusError => .uncaughtHTTPStatus

/-- The shared `try: request; _handle_response except httpx.ConnectError`
shape of every AeroClient operation (e.g. get_components, src/sdk/client.py
lines 65-70): httpx.ConnectError becomes the SDK's ConnectionError with the
base URL in the message; every other transport exception — in particular the
timeout family — is not caught and propagates to the caller. -/
def connectFailedMsg (base_url m : String) : String :=
  ("Failed to connect to " ++ base_url ++ ": " ++ m)

def clientCall (base_url : String) (inp : CallInput) : ClientOutcome :=
  match inp with
  | .response r => (handle_response r).lift
  | .transportFailure e =>
    match e with
    | .connectError m => .connectionError (connectFailedMsg base_url m)
    | e' => .uncaughtTransport e'

/-! The filter path, client and server ends (claim about
AeroClient.filter_components against list_components). -/

/-- The query-parameter dictionary AeroClient.filter_components builds
(src/sdk/client.py lines 174-176): `params = {}` and, when a type is given,
`params["type"] = component_type.value` — the key is the literal string
"type". -/
def filter_components_params (component_type : Option ComponentType) :
    List (String × String) :=
  match component_type with
  | none => []
  | some t => [("type", t.value)]

/-- How FastAPI binds `component_type: Optional[str] = Query(None)`
(src/server/routes.py line 18): the query value under the key
"component_type", if any. -/
def getParam (params : List (String × String)) (key : String) : Option String :=
  (params.find? (fun p => p.1 = key)).map Prod.snd

/-- The GET /api/components request as the server dispatches it: the
`component_type` argument of list_components is whatever stands under the
query key "component_type". -/
def list_endpoint (params : List (String × String)) (s : Store) : ListResult :=
  list_components (getParam params "component_type") s

/-- AeroClient.filter_components end to end (src/sdk/client.py lines
162-183): build the params dictionary, issue GET /api/components with it to
a server holding store `s`. -/
def filter_components (component_type : Option ComponentType) (s : Store) :
    ListResult :=
  list_endpoint (filter_components_params component_type) s

/-! Concrete sample data, used by witnesses and counterexamples. -/

/-- The sample record of the repository's tests (src/tests/test_client.py). -/
def wingComponent : Component :=
  { id := 1
    name := "Wing Assembly"
    description := some "Main wing"
    component_type := .wing
    weight_kg := 450
    material := some "Aluminum"
    created_at := 10
    updated_at := 10 }

def engineComponent : Component :=
  { id := 2
    name := "Turbofan"
    description := none
    component_type := .engine
    weight_kg := 1200
    material := none
    created_at := 11
    updated_at := 11 }

/-- A store holding one wing and one engine record. -/
def sampleStore : Store :=
  { components := [wingComponent, engineComponent], nextId := 3 }

def emptyStore : Store := { components := [], nextId := 1 }

/-- A valid creation payload (the end-to-end scenario of the tests). -/
def wingCreate : ComponentCreate :=
  { name := "Wing Assembly"
    description := some "Main wing"
    component_type := .wing
    weight_kg := 450
    material := some "Aluminum" }

/-- A creation payload violating the weight bound. -/
def zeroWeightCreate : ComponentCreate :=
  { name := "Wing Assembly"
    description := none
    component_type := .wing
    weight_kg := 0
    material := none }

def localBase : String := "http://localhost:8000"

def connRefusedMsg : String := "All connection attempts failed"

end AeroSDK

namespace AeroSDK

/-! Claim C1: the client's status-code mapping. -/

/-- C1 counterexample: a 307 redirect response is a status code the client
leaves unmapped to the typed taxonomy — _handle_response falls through to
httpx's raise_for_status, which raises httpx.HTTPStatusError, none of the
typed outcomes the claim enumerates, refuting that no status code is left
unmapped. -/
theorem c1_redirect_unmapped :
    handle_response { status_code := 307, text := "" } = .httpStatusError ∧
    (handle_response { status_code := 307, text := "" }).isTyped = false := by
  exact ⟨rfl, rfl⟩

/-- C1 (amended): _handle_response maps 404 to NotFoundError, every status
at least 500 to ServerError, every other 400-499 status to ValidationError
and every 200-299 status to success; but statuses below 200 and 300-399 are
not mapped to a typed outcome — they raise httpx.HTTPStatusError from
raise_for_status. -/
theorem c1_status_mapping (r : HttpResponse) :
    (r.status_code = 404 → handle_response r = .notFoundError r.text) ∧
    (500 ≤ r.status_code → handle_response r = .serverError (serverErrorMsg r.text)) ∧
    (400 ≤ r.status_code → r.status_code ≠ 404 → r.status_code < 500 →
      handle_response r = .validationError (validationErrorMsg r.text)) ∧
    (200 ≤ r.status_code → r.status_code ≤ 299 → handle_response r = .ok) ∧
    (r.status_code < 400 → r.status_code < 200 ∨ 299 < r.status_code →
      handle_response r = .httpStatusError) := by
  obtain ⟨n, t⟩ := r
  dsimp only [handle_response, raise_for_status]
  refine ⟨?_, ?_, ?_, ?_, ?_⟩
  · intro h
    subst h
    simp
  · intro h
    rw [if_neg (by omega), if_pos h]
  · intro h1 h2 h3
    rw [if_neg h2, if_neg (by omega), if_pos h1]
  · intro h1 h2
    rw [if_neg (by omega), if_neg (by omega), if_neg (by omega), if_pos ⟨h1, h2⟩]
  · intro h1 h2
    rw [if_neg (by omega), if_neg (by omega), if_neg (by omega), if_neg (by omega)]

/-- C1 witness: the amended mapping evaluated at statuses 404, 503, 422 and
200. -/
theorem c1_status_mapping_witness :
    handle_response { status_code := 404, text := componentNotFoundDetail } =
      .notFoundError componentNotFoundDetail ∧
    handle_response { status_code := 503, text := "" } = .serverError (serverErrorMsg "") ∧
    handle_response { status_code := 422, text := "" } =
      .validationError (validationErrorMsg "") ∧
    handle_response { status_code := 200, text := "" } = .ok :=
  ⟨(c1_status_mapping _).1 rfl,
   (c1_status_mapping _).2.1 (by decide),
   (c1_status_mapping _).2.2.1 (by decide) (by decide) (by decide),
   (c1_status_mapping _).2.2.2.1 (by decide) (by decide)⟩

/-! Claim C2: the filter path.  The client puts the chosen type under the
query key "type" (src/sdk/client.py line 176) while the server's list
endpoint reads the query key "component_type" (src/server/routes.py line 18),
so the server never sees the filter and always returns every stored record. -/

/-- C2: the client's filter_components never filters — for every requested
type and every store it receives all stored records, because the query key it
sends is not the one the server reads; in particular, on a store holding a
wing and an engine record, filtering by wing returns both, not the wing
subset the claim promises. -/
theorem c2_filter_components_returns_all :
    (∀ (component_type : Option ComponentType) (s : Store),
      filter_components component_type s = .ok s.components) ∧
    filter_components (some .wing) sampleStore = .ok [wingComponent, engineComponent] ∧
    sampleStore.components.filter
        (fun c => c.component_type = ComponentType.wing) = [wingComponent] := by
  refine ⟨fun component_type s => ?_, rfl, rfl⟩
  cases component_type <;> rfl

/-! Claim C3: transport-level failures.  Every client operation wraps its
request in `except httpx.ConnectError` only; httpx raises ConnectError for
DNS failure and connection refused, but timeout expiry raises a member of
the httpx.TimeoutException family, which that clause does not catch. -/

/-- C3 counterexample: a connect-timeout transport failure propagates out of
the client as the uncaught low-level httpx exception, not as the SDK's
ConnectionError — refuting that timeout expiry raises the typed
ConnectionError and that no unhandled low-level transport exception escapes. -/
theorem c3_timeout_uncaught :
    clientCall localBase (.transportFailure .connectTimeout) =
      .uncaughtTransport .connectTimeout ∧
    clientCall localBase (.transportFailure .connectTimeout) ≠
      .connectionError (connectFailedMsg localBase connRefusedMsg) := by
  exact ⟨rfl, by decide⟩

/-- C3 (amended): an httpx.ConnectError (DNS failure, connection refused)
raised before any response is mapped to the SDK's typed ConnectionError with
the base URL in the message; every other transport exception — the timeout
family — is not caught and propagates to the caller unchanged. -/
theorem c3_transport_mapping (base_url : String) (e : TransportExc) :
    (∀ m, e = .connectError m →
      clientCall base_url (.transportFailure e) =
        .connectionError (connectFailedMsg base_url m)) ∧
    (e.isConnectError = false →
      clientCall base_url (.transportFailure e) = .uncaughtTransport e) := by
  cases e with
  | connectError m0 =>
    refine ⟨fun m hm => ?_, fun hf => by simp [TransportExc.isConnectError] at hf⟩
    cases hm
    rfl
  | connectTimeout => exact ⟨fun m hm => (by cases hm), fun _ => rfl⟩
  | readTimeout => exact ⟨fun m hm => (by cases hm), fun _ => rfl⟩
  | poolTimeout => exact ⟨fun m hm => (by cases hm), fun _ => rfl⟩

/-- C3 witness: the amended mapping evaluated at a connection-refused
failure and at a read timeout. -/
theorem c3_transport_mapping_witness :
    clientCall localBase (.transportFailure (.connectError connRefusedMsg)) =
      .connectionError (connectFailedMsg localBase connRefusedMsg) ∧
    clientCall localBase (.transportFailure .readTimeout) =
      .uncaughtTransport .readTimeout :=
  ⟨(c3_transport_mapping localBase _).1 connRefusedMsg rfl,
   (c3_transport_mapping localBase _).2 rfl⟩

/-! Claim C4: rejected creation payloads.  The weight bound lives in the
pydantic model, so FastAPI rejects the request body before
create_component's handler runs — with its request-validation status 422,
not the 400 the spec's table announces.  The store is untouched either way. -/

/-- C4 counterexample: a creation payload with weight_kg = 0 is rejected
with status 422, not the claimed 400 (FastAPI's RequestValidationError
status; no handler in src/server/main.py remaps it), though indeed no record
is persisted. -/
theorem c4_zero_weight_rejected_with_422 :
    (create_component zeroWeightCreate 0 emptyStore).status = 422 ∧
    (create_component zeroWeightCreate 0 emptyStore).status ≠ 400 ∧
    (create_component zeroWeightCreate 0 emptyStore).store = emptyStore := by
  refine ⟨rfl, by decide, rfl⟩

/-- C4 (amended): every creation payload with weight_kg ≤ 0 is rejected
with status 422 (FastAPI's request-validation status, not 400), the detail
names weight_kg as the offending field, and the store is unchanged — no
record is persisted. -/
theorem c4_invalid_create_rejected (p : ComponentCreate) (now : Nat) (s : Store)
    (h : p.weight_kg ≤ 0) :
    create_component p now s = .unprocessable p.validationErrors s ∧
    (create_component p now s).status = 422 ∧
    (create_component p now s).store = s ∧
    "weight_kg" ∈ p.validationErrors := by
  have hw : ¬((0 : ℚ) < p.weight_kg) := not_lt.mpr h
  have hvalid : p.validB = false := by
    simp [ComponentCreate.validB, hw]
  refine ⟨?_, ?_, ?_, ?_⟩
  · simp [create_component, hvalid]
  · simp [create_component, hvalid, CreateResult.status]
  · simp [create_component, hvalid, CreateResult.store]
  · simp [ComponentCreate.validationErrors, hw]

/-- C4 witness: the amended claim evaluated at the zero-weight payload. -/
theorem c4_invalid_create_rejected_witness :
    create_component zeroWeightCreate 0 emptyStore =
      .unprocessable zeroWeightCreate.validationErrors emptyStore ∧
    (create_component zeroWeightCreate 0 emptyStore).status = 422 ∧
    (create_component zeroWeightCreate 0 emptyStore).store = emptyStore ∧
    "weight_kg" ∈ zeroWeightCreate.validationErrors :=
  c4_invalid_create_rejected zeroWeightCreate 0 emptyStore (by decide)

/-! Claim C5: partial updates.  The setattr loop applies exactly the present
fields, but updated_at refreshes only when the flush emits an UPDATE, which
SQLAlchemy skips when no applied field actually changed the row. -/

/-- An update payload that touches no field: `model_dump(exclude_none=True)`
is the empty dict and the setattr loop runs zero times. -/
def emptyUpdate : UpdatePayload :=
  { name := none
    description := none
    component_type := none
    weight_kg := none
    material := none }

/-- An update payload that sets weight_kg to the value the stored wing
record already has. -/
def sameWeightUpdate : UpdatePayload :=
  { name := none
    description := none
    component_type := none
    weight_kg := some 450
    material := none }

/-- C5 counterexample: a valid update at time 12 that sets weight_kg to its
current value 450 (touching only the subset containing weight_kg) succeeds
with 200, yet the returned record is the stored one with updated_at still at
its pre-update value 10 — the flush has no net change to write, so no UPDATE
is emitted and onupdate never fires; likewise for the all-absent payload.
This refutes the claim that updated_at strictly increases on every
successful subset update. -/
theorem c5_same_value_update_keeps_updated_at :
    update_component 1 sameWeightUpdate 12 sampleStore = .ok wingComponent sampleStore ∧
    (update_component 1 sameWeightUpdate 12 sampleStore).status = 200 ∧
    update_component 1 emptyUpdate 12 sampleStore = .ok wingComponent sampleStore ∧
    wingComponent.updated_at = 10 := by
  decide

/-- C5 (amended): a successful partial update applies exactly the present
fields of the payload: id and created_at are unchanged and every data field
absent from the payload keeps its pre-update value; updated_at strictly
increases when the applied fields give the row a net change (the flush emits
an UPDATE and onupdate fires), while a payload producing no net change —
every field absent, or present with the row's current value — leaves the
record entirely unchanged, updated_at included, though the call still
answers 200. -/
theorem c5_partial_update_net_change (s : Store) (i : Nat) (u : UpdatePayload)
    (now : Nat) (c : Component) (hfind : findComponent i s = some c)
    (hvalid : u.validB = true) (hnow : c.updated_at < now) :
    ∃ c', update_component i u now s =
        .ok c' { s with components := replaceFirst i c' s.components } ∧
      c'.id = c.id ∧
      c'.created_at = c.created_at ∧
      (u.name = none → c'.name = c.name) ∧
      (u.description = none → c'.description = c.description) ∧
      (u.component_type = none → c'.component_type = c.component_type) ∧
      (u.weight_kg = none → c'.weight_kg = c.weight_kg) ∧
      (u.material = none → c'.material = c.material) ∧
      (applyFields c u ≠ c → c.updated_at < c'.updated_at) ∧
      (applyFields c u = c → c' = c) := by
  by_cases hch : applyFields c u = c
  · have hnc : netChange c u = false := by simp [netChange, hch]
    refine ⟨c, ?_, rfl, rfl, fun _ => rfl, fun _ => rfl, fun _ => rfl,
      fun _ => rfl, fun _ => rfl, fun h => absurd hch h, fun _ => rfl⟩
    simp [update_component, hvalid, hfind, hnc, hch]
  · have hnc : netChange c u = true := by simp [netChange, hch]
    refine ⟨{ applyFields c u with updated_at := now },
      ?_, ?_, ?_, ?_, ?_, ?_, ?_, ?_, ?_, ?_⟩
    · simp [update_component, hvalid, hfind, hnc]
    · simp [applyFields]
    · simp [applyFields]
    · intro h
      simp [applyFields, h]
    · intro h
      simp [applyFields, h]
    · intro h
      simp [applyFields, h]
    · intro h
      simp [applyFields, h]
    · intro h
      simp [applyFields, h]
    · intro _
      simpa using hnow
    · intro h
      exact absurd h hch

/-- An update payload that changes only the weight. -/
def weightOnlyUpdate : UpdatePayload :=
  { name := none
    description := none
    component_type := none
    weight_kg := some 500
    material := none }

/-- C5 witness: updating only the weight of the stored wing record from 450
to 500 at time 12 leaves name, description, type, material, id and
created_at as they were; the weight change is a net change, so updated_at
strictly increases. -/
theorem c5_partial_update_net_change_witness :
    ∃ c', update_component 1 weightOnlyUpdate 12 sampleStore =
        .ok c' { sampleStore with
                  components := replaceFirst 1 c' sampleStore.components } ∧
      c'.id = wingComponent.id ∧
      c'.created_at = wingComponent.created_at ∧
      (weightOnlyUpdate.name = none → c'.name = wingComponent.name) ∧
      (weightOnlyUpdate.description = none →
        c'.description = wingComponent.description) ∧
      (weightOnlyUpdate.component_type = none →
        c'.component_type = wingComponent.component_type) ∧
      (weightOnlyUpdate.weight_kg = none →
        c'.weight_kg = wingComponent.weight_kg) ∧
      (weightOnlyUpdate.material = none → c'.material = wingComponent.material) ∧
      (applyFields wingComponent weightOnlyUpdate ≠ wingComponent →
        wingComponent.updated_at < c'.updated_at) ∧
      (applyFields wingComponent weightOnlyUpdate = wingComponent →
        c' = wingComponent) :=
  c5_partial_update_net_change sampleStore 1 weightOnlyUpdate 12 wingComponent
    (by decide) (by decide) (by decide)

/-! Claim C6: "absent" versus "explicitly null".  The client serializes the
update body with `model_dump(exclude_none=True)`, which drops every field
whose value is None — whether the caller set it to None explicitly or never
touched it — so the two cases produce the same wire body. -/

/-- An update in which the caller explicitly set description to None
(description is in the model's fields-set). -/
def descriptionNullUpdate : ComponentUpdate :=
  { name := none
    description := none
    component_type := none
    weight_kg := none
    material := none
    fieldsSet := ["description"] }

/-- An update in which the caller never touched description. -/
def untouchedUpdate : ComponentUpdate :=
  { name := none
    description := none
    component_type := none
    weight_kg := none
    material := none
    fieldsSet := [] }

/-- C6 counterexample: an update whose description the caller explicitly set
to None and an update whose description the caller never touched are
distinct payloads, yet the client serializes them to the same wire body —
the two signals the claim calls distinct are indistinguishable on the wire
(and hence to the server). -/
theorem c6_null_indistinguishable_from_absent :
    descriptionNullUpdate ≠ untouchedUpdate ∧
    descriptionNullUpdate.dumpExcludeNone = untouchedUpdate.dumpExcludeNone := by
  exact ⟨by decide, rfl⟩

/-- C6 (amended): the client's serialization of an update payload depends
only on the field values, never on which fields the caller explicitly set —
every None-valued field is omitted, so a field explicitly set to null is NOT
distinguishable from an untouched one; the server then applies exactly the
present (hence non-null) fields. -/
theorem c6_dump_ignores_fields_set (u : ComponentUpdate) (fs fs' : List String) :
    ComponentUpdate.dumpExcludeNone { u with fieldsSet := fs } =
      ComponentUpdate.dumpExcludeNone { u with fieldsSet := fs' } ∧
    (ComponentUpdate.dumpExcludeNone u).name = u.name ∧
    (ComponentUpdate.dumpExcludeNone u).description = u.description := by
  exact ⟨rfl, rfl, rfl⟩

/-! Claim C7: delete is not idempotent.  Helper lemmas about removing the
first row with a given id. -/

/-- A list none of whose rows carries id `i` yields no find? hit for `i`. -/
theorem find?_id_eq_none (i : Nat) (l : List Component)
    (h : ∀ c ∈ l, c.id ≠ i) : l.find? (fun c => c.id = i) = none :=
  List.find?_eq_none.mpr (fun x hx => by simpa using h x hx)

/-- After removing the first row with id `i` from a table with distinct ids,
no row with id `i` remains. -/
theorem find?_removeFirst_self (i : Nat) (l : List Component)
    (h : (l.map Component.id).Nodup) :
    (removeFirst i l).find? (fun c => c.id = i) = none := by
  induction l with
  | nil => rfl
  | cons c rest ih =>
    rw [List.map_cons, List.nodup_cons] at h
    by_cases hc : c.id = i
    · rw [removeFirst, if_pos hc]
      apply find?_id_eq_none
      intro x hx hxi
      have hmem : x.id ∈ rest.map Component.id := List.mem_map_of_mem Component.id hx
      rw [hxi, ← hc] at hmem
      exact h.1 hmem
    · rw [removeFirst, if_neg hc]
      rw [List.find?_cons_of_neg _ (by simpa using hc)]
      exact ih h.2

/-- Removing the first row with id `i` does not change the lookup of any
other id. -/
theorem find?_removeFirst_ne (i j : Nat) (hne : j ≠ i) (l : List Component) :
    (removeFirst i l).find? (fun c => c.id = j) = l.find? (fun c => c.id = j) := by
  induction l with
  | nil => rfl
  | cons c rest ih =>
    by_cases hc : c.id = i
    · rw [removeFirst, if_pos hc,
        List.find?_cons_of_neg _ (by simp [hc]; exact fun h => hne h.symm)]
    · rw [removeFirst, if_neg hc]
      by_cases hj : c.id = j
      · rw [List.find?_cons_of_pos _ (by simpa using hj),
          List.find?_cons_of_pos _ (by simpa using hj)]
      · rw [List.find?_cons_of_neg _ (by simpa using hj),
          List.find?_cons_of_neg _ (by simpa using hj), ih]

/-- C7: on a well-formed store, deleting an existing id answers 204 and
removes the record entirely (its id no longer resolves, all other ids are
untouched), and a second delete of the same id — like any delete of an id
with no record — answers 404 with the not-found detail, not a no-op
success. -/
theorem c7_delete_not_idempotent (s : Store) (i : Nat) (hwf : s.WF)
    (hin : (findComponent i s).isSome = true) :
    delete_component i s =
      .noContent { s with components := removeFirst i s.components } ∧
    (delete_component i s).status = 204 ∧
    findComponent i { s with components := removeFirst i s.components } = none ∧
    (∀ j, j ≠ i →
      findComponent j { s with components := removeFirst i s.components } =
        findComponent j s) ∧
    delete_component i { s with components := removeFirst i s.components } =
      .notFound componentNotFoundDetail
        { s with components := removeFirst i s.components } ∧
    (∀ t : Store, findComponent i t = none →
      delete_component i t = .notFound componentNotFoundDetail t) := by
  obtain ⟨c, hc⟩ := Option.isSome_iff_exists.mp hin
  have hgone : findComponent i { s with components := removeFirst i s.components } =
      none := find?_removeFirst_self i s.components hwf.1
  refine ⟨?_, ?_, hgone, ?_, ?_, ?_⟩
  · simp [delete_component, hc]
  · simp [delete_component, hc, DeleteResult.status]
  · exact fun j hj => find?_removeFirst_ne i j hj s.components
  · simp [delete_component, hgone]
  · intro t ht
    simp [delete_component, ht]

/-- C7 witness: deleting id 1 from the sample store succeeds with 204 and
removes the record; deleting it again answers 404. -/
theorem c7_delete_not_idempotent_witness :
    delete_component 1 sampleStore =
      .noContent { sampleStore with
                    components := removeFirst 1 sampleStore.components } ∧
    (delete_component 1 sampleStore).status = 204 ∧
    findComponent 1 { sampleStore with
                       components := removeFirst 1 sampleStore.components } = none ∧
    (∀ j, j ≠ 1 →
      findComponent j { sampleStore with
                         components := removeFirst 1 sampleStore.components } =
        findComponent j sampleStore) ∧
    delete_component 1 { sampleStore with
                          components := removeFirst 1 sampleStore.components } =
      .notFound componentNotFoundDetail
        { sampleStore with components := removeFirst 1 sampleStore.components } ∧
    (∀ t : Store, findComponent 1 t = none →
      delete_component 1 t = .notFound componentNotFoundDetail t) :=
  c7_delete_not_idempotent sampleStore 1 (by decide) (by decide)

/-! Claim C8: invalid type filters.  The handler guards the filter branch
with Python truthiness, so the empty string — supplied, and not an
enumeration member — bypasses the enumeration check entirely. -/

/-- C8 counterexample: the empty string supplied as the component_type query
value is not an enumeration member, yet the list endpoint answers 200 with
all stored records instead of the claimed 400. -/
theorem c8_empty_string_not_rejected :
    list_endpoint [("component_type", "")] sampleStore = .ok sampleStore.components ∧
    (list_endpoint [("component_type", "")] sampleStore).status = 200 ∧
    (list_endpoint [("component_type", "")] sampleStore).status ≠ 400 ∧
    ComponentType.ofString? "" = none := by
  refine ⟨rfl, rfl, by decide, rfl⟩

/-- C8 (amended): every NONEMPTY supplied component_type query value that is
not an enumeration member yields a 400 with a detail naming the value,
never a silent empty result; the empty string alone slips through the
truthiness guard and is treated as no filter. -/
theorem c8_invalid_nonempty_rejected (t : String) (s : Store) (hne : t ≠ "")
    (hinv : ComponentType.ofString? t = none) :
    list_components (some t) s = .badRequest (invalidTypeDetail t) ∧
    (list_components (some t) s).status = 400 := by
  constructor <;> simp [list_components, hne, hinv, ListResult.status]

def invalidTypeString : String := "plastic"

/-- C8 witness: the amended claim evaluated at the non-enumeration value
"plastic". -/
theorem c8_invalid_nonempty_rejected_witness :
    list_components (some invalidTypeString) sampleStore =
      .badRequest (invalidTypeDetail invalidTypeString) ∧
    (list_components (some invalidTypeString) sampleStore).status = 400 :=
  c8_invalid_nonempty_rejected invalidTypeString sampleStore (by decide) (by decide)

/-! Claim C9: what a successful create returns. -/

/-- C9: for every valid creation payload, the created record carries the
payload's weight_kg unchanged, equal created_at and updated_at (both
timestamp columns take func.now() in the same INSERT), and the sequence's
next id — which differs from every previously assigned id, since the
sequence only counts up and never reuses a value, and in particular from the
id of every record still in the store. -/
theorem c9_create_returns_fresh_record (p : ComponentCreate) (now : Nat)
    (s : Store) (hvalid : p.validB = true) (hwf : s.WF) :
    ∃ c s', create_component p now s = .created c s' ∧
      c.weight_kg = p.weight_kg ∧
      c.created_at = c.updated_at ∧
      c.id = s.nextId ∧
      (∀ j, j < s.nextId → c.id ≠ j) ∧
      (∀ prior ∈ s.components, c.id ≠ prior.id) := by
  refine ⟨{ id := s.nextId
            name := p.name
            description := p.description
            component_type := p.component_type
            weight_kg := p.weight_kg
            material := p.material
            created_at := now
            updated_at := now },
          { components := s.components ++ [{ id := s.nextId
                                             name := p.name
                                             description := p.description
                                             component_type := p.component_type
                                             weight_kg := p.weight_kg
                                             material := p.material
                                             created_at := now
                                             updated_at := now }],
            nextId := s.nextId + 1 },
          ?_, rfl, rfl, rfl, ?_, ?_⟩
  · simp [create_component, hvalid]
  · intro j hj
    show s.nextId ≠ j
    omega
  · intro prior hp
    have := hwf.2 prior hp
    show s.nextId ≠ prior.id
    omega

/-- C9 witness: creating the wing payload at time 5 on the sample store. -/
theorem c9_create_returns_fresh_record_witness :
    ∃ c s', create_component wingCreate 5 sampleStore = .created c s' ∧
      c.weight_kg = wingCreate.weight_kg ∧
      c.created_at = c.updated_at ∧
      c.id = sampleStore.nextId ∧
      (∀ j, j < sampleStore.nextId → c.id ≠ j) ∧
      (∀ prior ∈ sampleStore.components, c.id ≠ prior.id) :=
  c9_create_returns_fresh_record wingCreate 5 sampleStore (by decide) (by decide)

/-! Claim C10: the empty-string filter value. -/

/-- C10: when the list endpoint receives component_type as the empty string,
the truthiness guard skips the filter branch (the empty string is falsy in
Python), so the endpoint answers 200 with all stored records instead of
rejecting the value as an invalid enumeration member. -/
theorem c10_empty_string_skips_filter (s : Store) :
    list_endpoint [("component_type", "")] s = .ok s.components ∧
    (list_endpoint [("component_type", "")] s).status = 200 := by
  exact ⟨rfl, rfl⟩

end AeroSDK
